import Mathlib

/-!
Verification development for the review-bot admin console (`admin_bot.py`).

The relational store is embedded as an explicit record of row lists; each
persistence-gateway function of the source becomes a pure Lean function from
the store to a result and an updated store.  Conversation handlers become
functions from (text input, per-identity scratch data, store) to
(next conversation state, scratch, store, rendered outputs).  The
`ConversationHandler` registration table of `main()` is embedded as data, so
that the dispatch structure itself can be inspected.
-/

/-- Conversation states, mirroring the `range(15)` tuple assignment of the
source plus the terminal `ConversationHandler.END`. -/
inductive BotState where
  | MAIN_MENU
  | MANAGE_USERS
  | MANAGE_QUESTIONS
  | MANAGE_PROMPTS
  | ADD_USER
  | REMOVE_USER
  | LIST_USERS
  | SELECT_BUSINESS_TYPE
  | ADD_BUSINESS_TYPE
  | ADD_QUESTION_FOR_TYPE
  | EDIT_QUESTION
  | EDIT_PROMPT
  | EDIT_USER_INFO
  | ADD_USERNAME
  | ADD_COMMENT
  | END
deriving DecidableEq, Repr

/-- A row of the `users` table: `telegram_id` (unique key), `business_type`,
and the nullable `username` / `comment` columns added by `init_database`.
`business_type` is nullable here because handlers pass
`context.user_data.get("selected_business_type")`, which may be `None`. -/
structure UserRow where
  telegram_id : Int
  business_type : Option String
  username : Option String
  comment : Option String
deriving DecidableEq, Repr

/-- A row of the `questions` table: serial `id`, `business_type`,
`question_text`, `question_order`. -/
structure Question where
  id : Int
  business_type : String
  question_text : String
  question_order : Nat
deriving DecidableEq, Repr

/-- A row of the `prompts` table: `business_type` (unique key), `prompt_text`. -/
structure PromptRow where
  business_type : String
  prompt_text : String
deriving DecidableEq, Repr

/-- The relational store.  `nextQuestionId` models the serial id counter of
the `questions` table. -/
structure DB where
  users : List UserRow
  questions : List Question
  prompts : List PromptRow
  nextQuestionId : Int
deriving DecidableEq, Repr

/-- Per-identity scratch data, mirroring the `context.user_data` keys the
source reads and writes. -/
structure Scratch where
  selected_business_type : Option String
  edit_user_id : Option Int
  edit_question_id : Option Int
  next_question_order : Option Nat
  all_users : List (Int × String)
deriving DecidableEq, Repr

/-- Messages rendered back to the administrator; each constructor stands for
one `reply_text` / `edit_message_text` call of the source. -/
inductive Out where
  | errIdNotNumber
  | chooseAction
  | userAdded (tid : Int) (name : Option String)
  | addFailed
  | userRemoved (tid : Int)
  | userNotFoundMsg (tid : Int)
  | askNewQuestionText
  | errQuestionIdNotNumber
  | questionUpdated (qid : Option Int)
  | questionUpdateFailed (qid : Option Int)
  | cancelled
  | mainMenu
  | unauthorized
deriving DecidableEq, Repr

/-- SQL `COALESCE(a, b)`: the first non-null of the two. -/
def coalesce (a b : Option String) : Option String :=
  match a with
  | some s => some s
  | none => b

/-- Digits of a Python `int()` literal after the optional sign: nonempty,
ASCII digits, a single underscore allowed only between digits. -/
def pyDigitsAux : List Char → Nat → Option Nat
  | [], acc => some acc
  | '_' :: c :: cs, acc =>
      if c.isDigit then pyDigitsAux cs (acc * 10 + (c.toNat - 48)) else none
  | c :: cs, acc =>
      if c.isDigit then pyDigitsAux cs (acc * 10 + (c.toNat - 48)) else none

/-- Parse a nonempty all-digit (with legal underscores) character list. -/
def pyDigits : List Char → Option Nat
  | [] => none
  | '_' :: _ => none
  | c :: cs => if c.isDigit then pyDigitsAux cs (c.toNat - 48) else none

/-- Drop leading whitespace characters. -/
def dropLeadingWs : List Char → List Char
  | [] => []
  | c :: cs => if c.isWhitespace then dropLeadingWs cs else c :: cs

/-- Model of Python `s.strip()`: remove leading and trailing whitespace. -/
def pyStrip (s : String) : String :=
  String.mk ((dropLeadingWs (dropLeadingWs s.toList).reverse).reverse)

/-- Model of Python `int(s)` on a string: strip whitespace, optional sign,
digits; `none` models `ValueError`. -/
def pyParseInt (s : String) : Option Int :=
  match (pyStrip s).toList with
  | '+' :: rest => (pyDigits rest).map Int.ofNat
  | '-' :: rest => (pyDigits rest).map (fun n => -(Int.ofNat n))
  | cs => (pyDigits cs).map Int.ofNat

/-- Split off the first whitespace-delimited token. -/
def splitFirstToken : List Char → List Char × List Char
  | [] => ([], [])
  | c :: cs =>
      if c.isWhitespace then ([], dropLeadingWs cs)
      else
        let p := splitFirstToken cs
        (c :: p.1, p.2)

/-- Model of Python `s.split(maxsplit=1)` on an already-stripped string:
the first token and, when present, the nonempty remainder. -/
def pySplitMax1 (s : String) : String × Option String :=
  let p := splitFirstToken s.toList
  (String.mk p.1, if p.2.isEmpty then none else some (String.mk p.2))

/-- `get_business_types`: `SELECT DISTINCT business_type FROM users`. -/
def get_business_types (db : DB) : List (Option String) :=
  (db.users.map (·.business_type)).dedup

/-- The row update performed by the `ON CONFLICT` arm of `add_user`:
`business_type` is overwritten, `username`/`comment` are coalesced. -/
def updUser (bt u c : Option String) (r : UserRow) : UserRow :=
  { r with business_type := bt
         , username := coalesce u r.username
         , comment := coalesce c r.comment }

/-- `add_user`: `INSERT ... ON CONFLICT (telegram_id) DO UPDATE`; commits and
returns `True` on statement success. -/
def add_user (tid : Int) (bt u c : Option String) (db : DB) : Bool × DB :=
  if db.users.any (·.telegram_id == tid) then
    (true, { db with users := db.users.map (fun r =>
        if r.telegram_id == tid then updUser bt u c r else r) })
  else
    (true, { db with users :=
        db.users ++ [{ telegram_id := tid, business_type := bt, username := u, comment := c }] })

/-- `remove_user`: `DELETE FROM users WHERE telegram_id = %s`; the result is
`cur.rowcount > 0`. -/
def remove_user (tid : Int) (db : DB) : Bool × DB :=
  (db.users.any (·.telegram_id == tid),
   { db with users := db.users.filter (fun r => !(r.telegram_id == tid)) })

/-- One `INSERT INTO questions (business_type, question_text, question_order)`,
drawing a fresh serial id. -/
def insertQuestion (bt text : String) (ord : Nat) (db : DB) : DB :=
  { db with
      questions := db.questions ++
        [{ id := db.nextQuestionId, business_type := bt
         , question_text := text, question_order := ord }]
      , nextQuestionId := db.nextQuestionId + 1 }

/-- First standard question of `add_business_type`. -/
def sq0 : String := "Что именно вас приятно удивило или впечатлило при посещении?"

/-- Second standard question of `add_business_type`. -/
def sq1 : String := "Какие качества персонала вызвали у вас доверие и помогли почувствовать себя комфортно?"

/-- Third standard question of `add_business_type`. -/
def sq2 : String := "Как изменилось ваше состояние или решилась проблема после обращения?"

/-- Fourth standard question of `add_business_type`. -/
def sq3 : String := "Почему бы вы порекомендовали нас друзьям или родственникам?"

/-- The `standard_questions` list of `add_business_type`. -/
def standard_questions : List String := [sq0, sq1, sq2, sq3]

/-- The `standard_prompt` literal, also the fallback of `get_prompt` (the
source repeats the same literal in both places). -/
def standard_prompt : String :=
  "На основе следующих ответов составь отзыв:\n\n\x7b\x7d\n\nСоставь связный, теплый отзыв, будто писал клиент, который остался доволен сервисом."

/-- `INSERT INTO prompts ... ON CONFLICT (business_type) DO UPDATE SET
prompt_text = %s` (the statement shared by `add_business_type` and
`update_prompt`). -/
def upsertPrompt (bt text : String) (db : DB) : DB :=
  { db with prompts :=
      if db.prompts.any (·.business_type == bt) then
        db.prompts.map (fun p =>
          if p.business_type == bt then { p with prompt_text := text } else p)
      else
        db.prompts ++ [{ business_type := bt, prompt_text := text }] }

/-- `add_business_type`: the `for i, question in enumerate(standard_questions)`
loop unrolled over the four fixed questions (orders 0–3), followed by the
prompt upsert; one commit at the end, so the whole sequence is one
transaction. -/
def add_business_type (bt : String) (db : DB) : Bool × DB :=
  let db1 := insertQuestion bt sq0 0 db
  let db2 := insertQuestion bt sq1 1 db1
  let db3 := insertQuestion bt sq2 2 db2
  let db4 := insertQuestion bt sq3 3 db3
  (true, upsertPrompt bt standard_prompt db4)

/-- `update_question`: `UPDATE questions SET question_text = %s WHERE id = %s`;
the source returns `True` after `commit()` without inspecting `rowcount`.
The id is an `Option` because the caller passes
`context.user_data.get("edit_question_id")`, which may be `None` (SQL
`id = NULL` matches no row). -/
def update_question (qid : Option Int) (new_text : String) (db : DB) : Bool × DB :=
  (true, { db with questions := db.questions.map (fun q =>
      if some q.id == qid then { q with question_text := new_text } else q) })

/-- `get_prompt`: the stored `prompt_text` for the type, or the fixed default
template when no row exists. -/
def get_prompt (bt : String) (db : DB) : String :=
  match db.prompts.find? (·.business_type == bt) with
  | some p => p.prompt_text
  | none => standard_prompt

/-- Insert a question before the first row of larger-or-equal order
(auxiliary for the `ORDER BY question_order` model). -/
def insertByOrder (q : Question) : List Question → List Question
  | [] => [q]
  | r :: rs =>
      if q.question_order ≤ r.question_order then q :: r :: rs
      else r :: insertByOrder q rs

/-- Model of SQL `ORDER BY question_order` (insertion sort). -/
def sortByOrder (l : List Question) : List Question :=
  l.foldr insertByOrder []

/-- `get_questions_for_business_type`: `SELECT id, question_text,
question_order FROM questions WHERE business_type = %s ORDER BY
question_order`. -/
def get_questions_for_business_type (bt : String) (db : DB) : List (Int × String × Nat) :=
  (sortByOrder (db.questions.filter (·.business_type == bt))).map
    (fun q => (q.id, q.question_text, q.question_order))

/-- The message of the exception raised by `db_pool.getconn()` and re-raised
by `get_connection`. -/
def poolFailureMsg : String := "connection pool failure"

/-- `add_user` with its failure modes made explicit.  `poolOk = false` models
`get_connection` raising: that call sits before the `try` block, so the
exception escapes the function (`Except.error`).  `stmtOk = false` models a
statement/commit error inside `try`: the `except` arm rolls back and returns
`False`. -/
def add_user_gw (poolOk stmtOk : Bool) (tid : Int) (bt u c : Option String)
    (db : DB) : Except String (Bool × DB) :=
  if poolOk then
    if stmtOk then Except.ok (add_user tid bt u c db)
    else Except.ok (false, db)
  else Except.error poolFailureMsg

/-- `remove_user` with explicit failure modes (same shape as `add_user_gw`). -/
def remove_user_gw (poolOk stmtOk : Bool) (tid : Int) (db : DB) :
    Except String (Bool × DB) :=
  if poolOk then
    if stmtOk then Except.ok (remove_user tid db)
    else Except.ok (false, db)
  else Except.error poolFailureMsg

/-- `update_question` with explicit failure modes. -/
def update_question_gw (poolOk stmtOk : Bool) (qid : Option Int)
    (new_text : String) (db : DB) : Except String (Bool × DB) :=
  if poolOk then
    if stmtOk then Except.ok (update_question qid new_text db)
    else Except.ok (false, db)
  else Except.error poolFailureMsg

/-- `add_business_type` with explicit failure modes: any statement failing
rolls the whole sequence back (single commit at the end). -/
def add_business_type_gw (poolOk stmtOk : Bool) (bt : String) (db : DB) :
    Except String (Bool × DB) :=
  if poolOk then
    if stmtOk then Except.ok (add_business_type bt db)
    else Except.ok (false, db)
  else Except.error poolFailureMsg

/-- `add_user_handler`: strip, `split(maxsplit=1)`, `int(parts[0])`; on
`ValueError` an inline error; either way a "choose an action" keyboard and
`MANAGE_USERS`.  (The source would raise `IndexError` on an empty message;
`Filters.text` only delivers nonempty text, and the theorems below exclude
the empty input.) -/
def add_user_handler (input : String) (sc : Scratch) (db : DB) :
    BotState × Scratch × DB × List Out :=
  let pr := pySplitMax1 (pyStrip input)
  match pyParseInt pr.1 with
  | none => (BotState.MANAGE_USERS, sc, db, [Out.errIdNotNumber, Out.chooseAction])
  | some tid =>
      let r := add_user tid sc.selected_business_type pr.2 none db
      if r.1 then
        (BotState.MANAGE_USERS, sc, r.2, [Out.userAdded tid pr.2, Out.chooseAction])
      else
        (BotState.MANAGE_USERS, sc, r.2, [Out.addFailed, Out.chooseAction])

/-- `remove_user_handler`: `int(text.strip())`, delete, report; always ends
in `MANAGE_USERS` with the "choose an action" keyboard. -/
def remove_user_handler (input : String) (sc : Scratch) (db : DB) :
    BotState × Scratch × DB × List Out :=
  match pyParseInt (pyStrip input) with
  | none => (BotState.MANAGE_USERS, sc, db, [Out.errIdNotNumber, Out.chooseAction])
  | some tid =>
      let r := remove_user tid db
      if r.1 then
        (BotState.MANAGE_USERS, sc, r.2, [Out.userRemoved tid, Out.chooseAction])
      else
        (BotState.MANAGE_USERS, sc, r.2, [Out.userNotFoundMsg tid, Out.chooseAction])

/-- `edit_question_handler` (defined in the source but registered in no
state): parse the question id, store it in scratch, ask for the new text and
stay in `EDIT_QUESTION`; on `ValueError` fall back to `MANAGE_QUESTIONS`. -/
def edit_question_handler (input : String) (sc : Scratch) (db : DB) :
    BotState × Scratch × DB × List Out :=
  match pyParseInt (pyStrip input) with
  | none =>
      (BotState.MANAGE_QUESTIONS, sc, db,
       [Out.errQuestionIdNotNumber, Out.chooseAction])
  | some qid =>
      (BotState.EDIT_QUESTION, { sc with edit_question_id := some qid }, db,
       [Out.askNewQuestionText])

/-- `update_question_text_handler`: read `edit_question_id` from scratch
(possibly `None`), treat the message as the new text, call
`update_question`, return to `MANAGE_QUESTIONS`. -/
def update_question_text_handler (input : String) (sc : Scratch) (db : DB) :
    BotState × Scratch × DB × List Out :=
  let qid := sc.edit_question_id
  let r := update_question qid (pyStrip input) db
  if r.1 then
    (BotState.MANAGE_QUESTIONS, sc, r.2, [Out.questionUpdated qid, Out.chooseAction])
  else
    (BotState.MANAGE_QUESTIONS, sc, r.2, [Out.questionUpdateFailed qid, Out.chooseAction])

/-- Names of all functions defined at module level in `admin_bot.py`. -/
def definedFunctionNames : List String :=
  [ "get_connection", "init_database", "release_connection", "is_admin"
  , "get_business_types", "get_users_by_business_type", "update_user_info"
  , "get_user_info", "add_user", "remove_user"
  , "get_questions_for_business_type", "add_business_type", "add_question"
  , "update_question", "get_prompt", "update_prompt", "start"
  , "show_main_menu", "main_menu_handler", "show_user_management"
  , "user_management_handler", "show_user_list"
  , "business_type_selection_handler", "add_business_type_handler"
  , "add_user_for_new_type_handler", "add_user_handler"
  , "remove_user_handler", "user_list_handler", "show_user_selection"
  , "edit_user_info_handler", "edit_user_info_selection_handler"
  , "cancel_edit_handler", "add_username_handler", "add_comment_handler"
  , "show_question_management", "question_management_handler"
  , "show_questions_for_type", "question_action_handler"
  , "add_question_for_type_handler", "edit_question_handler"
  , "update_question_text_handler", "back_to_question_type_handler"
  , "show_prompt_management", "prompt_management_handler"
  , "show_prompt_for_type", "prompt_action_handler", "edit_prompt_handler"
  , "back_to_prompt_management_handler", "cancel", "main" ]

/-- The `CallbackQueryHandler` registrations of the `ConversationHandler`
state table: for each state, the (handler name, pattern) pairs, verbatim
from `main()`. -/
def callbackHandlersFor : BotState → List (String × String)
  | BotState.MAIN_MENU =>
      [("main_menu_handler", "^(manage_users|manage_questions|manage_prompts|exit)$")]
  | BotState.MANAGE_USERS =>
      [ ("user_management_handler", "^(add_user|remove_user|list_users|back_to_main)$")
      , ("user_list_handler", "^back_to_user_management$") ]
  | BotState.SELECT_BUSINESS_TYPE =>
      [ ("business_type_selection_handler", "^(add_business_type|back_to_user_management|select_type:.+)$")
      , ("add_user_for_new_type_handler", "^add_user_for_new_type$") ]
  | BotState.LIST_USERS =>
      [ ("user_list_handler", "^(back_to_user_management|select_user_to_edit)$")
      , ("show_user_list", "^back_to_user_list$") ]
  | BotState.MANAGE_QUESTIONS =>
      [ ("question_management_handler", "^(back_to_main|question_type:.+)$")
      , ("question_action_handler", "^(add_question|edit_question|back_to_question_management)$")
      , ("back_to_question_type_handler", "^back_to_question_type$") ]
  | BotState.MANAGE_PROMPTS =>
      [ ("prompt_management_handler", "^(back_to_main|prompt_type:.+)$")
      , ("prompt_action_handler", "^(edit_prompt|back_to_prompt_management)$")
      , ("back_to_prompt_management_handler", "^back_to_prompt_management$") ]
  | BotState.EDIT_USER_INFO =>
      [ ("edit_user_selection_handler", "^edit_user:[0-9]+$")
      , ("edit_user_info_selection_handler", "^(edit_username|edit_comment|back_to_user_select|back_to_user_list)$")
      , ("cancel_edit_handler", "^cancel_edit$") ]
  | BotState.ADD_USERNAME => [("cancel_edit_handler", "^cancel_edit$")]
  | BotState.ADD_COMMENT => [("cancel_edit_handler", "^cancel_edit$")]
  | _ => []

/-- The `MessageHandler(Filters.text & ~Filters.command, ...)` registrations
of the state table: the text-event handler per state, when one exists. -/
def registeredTextHandler : BotState → Option String
  | BotState.SELECT_BUSINESS_TYPE => some ("add_business_type_handler")
  | BotState.ADD_BUSINESS_TYPE => some ("add_business_type_handler")
  | BotState.ADD_USER => some ("add_user_handler")
  | BotState.REMOVE_USER => some ("remove_user_handler")
  | BotState.ADD_QUESTION_FOR_TYPE => some ("add_question_for_type_handler")
  | BotState.EDIT_QUESTION => some ("update_question_text_handler")
  | BotState.EDIT_PROMPT => some ("edit_prompt_handler")
  | BotState.ADD_USERNAME => some ("add_username_handler")
  | BotState.ADD_COMMENT => some ("add_comment_handler")
  | _ => none

/-- The fifteen states of the `states` dictionary. -/
def allStates : List BotState :=
  [ BotState.MAIN_MENU, BotState.MANAGE_USERS, BotState.SELECT_BUSINESS_TYPE
  , BotState.ADD_BUSINESS_TYPE, BotState.ADD_USER, BotState.REMOVE_USER
  , BotState.LIST_USERS, BotState.MANAGE_QUESTIONS
  , BotState.ADD_QUESTION_FOR_TYPE, BotState.EDIT_QUESTION
  , BotState.MANAGE_PROMPTS, BotState.EDIT_PROMPT, BotState.EDIT_USER_INFO
  , BotState.ADD_USERNAME, BotState.ADD_COMMENT ]

/-- Every handler name mentioned anywhere in the `ConversationHandler`:
state callbacks, state text handlers, entry point and fallback. -/
def allRegisteredHandlerNames : List String :=
  (allStates.map (fun s => (callbackHandlersFor s).map Prod.fst)).flatten
    ++ allStates.filterMap registeredTextHandler
    ++ [("start"), ("cancel")]

/-- `is_admin`: membership in the `ADMIN_IDS` allow-list (loaded from the
environment, here a parameter). -/
def is_admin (adminIds : List Int) (uid : Int) : Bool :=
  adminIds.contains uid

/-- What the dispatcher keeps per identity: the active conversation state of
the `ConversationHandler` (`none` when no conversation is active, i.e. after
`ConversationHandler.END`) and the persistent `context.user_data` map. -/
structure IdentityStore where
  conversation : Option BotState
  user_data : Scratch
deriving DecidableEq, Repr

/-- A `/cancel` command: in every state the per-state handlers ignore
commands, so the `fallbacks` entry runs `cancel`, which replies with a
confirmation and returns `ConversationHandler.END`; the dispatcher drops the
conversation entry.  `context.user_data` is not touched. -/
def cancelStep (s : IdentityStore) : IdentityStore × List Out :=
  match s.conversation with
  | some _ => ({ conversation := none, user_data := s.user_data }, [Out.cancelled])
  | none => (s, [])

/-- A `/start` command with no active conversation: `start` checks
`is_admin` and either shows the main menu (entering `MAIN_MENU`) or replies
with the rejection notice and returns `END`. -/
def startStep (adminIds : List Int) (uid : Int) (s : IdentityStore) :
    IdentityStore × List Out :=
  if is_admin adminIds uid then
    ({ conversation := some BotState.MAIN_MENU, user_data := s.user_data }, [Out.mainMenu])
  else
    ({ conversation := none, user_data := s.user_data }, [Out.unauthorized])

/-- The empty store (fresh tables, serial counter at 1). -/
def emptyDB : DB := { users := [], questions := [], prompts := [], nextQuestionId := 1 }

/-- Scratch with no keys set. -/
def emptyScratch : Scratch :=
  { selected_business_type := none, edit_user_id := none
  , edit_question_id := none, next_question_order := none, all_users := [] }

/-- Scratch left over from an interrupted add-user flow. -/
def scClinic : Scratch :=
  { emptyScratch with selected_business_type := some ("Clinic"), edit_user_id := some 5 }

/-- A sample question row (id 7, order 0). -/
def qex : Question :=
  { id := 7, business_type := "Clinic", question_text := "old text", question_order := 0 }

/-- A one-question store for witnesses. -/
def dbex : DB := { users := [], questions := [qex], prompts := [], nextQuestionId := 8 }

/-! ## Helper lemmas -/

theorem coalesce_coalesce (u v : Option String) : coalesce u (coalesce u v) = coalesce u v := by
  cases u <;> rfl

theorem coalesce_self (u : Option String) : coalesce u u = u := by
  cases u <;> rfl

theorem updUser_telegram_id (bt u c : Option String) (r : UserRow) :
    (updUser bt u c r).telegram_id = r.telegram_id := rfl

theorem updUser_updUser (bt u c : Option String) (r : UserRow) :
    updUser bt u c (updUser bt u c r) = updUser bt u c r := by
  simp [updUser, coalesce_coalesce]

theorem find_none_append {α : Type} {p : α → Bool} {l1 l2 : List α}
    (h : ∀ x ∈ l1, ¬ p x) : (l1 ++ l2).find? p = l2.find? p := by
  induction l1 with
  | nil => rfl
  | cons a l ih =>
      rw [List.cons_append, List.find?_cons_of_neg _ (h a (by simp))]
      exact ih (fun x hx => h x (by simp [hx]))

theorem any_map_upd (tid : Int) (bt u c : Option String) (l : List UserRow) :
    ((l.map (fun r => if r.telegram_id == tid then updUser bt u c r else r)).any
        (·.telegram_id == tid))
      = l.any (·.telegram_id == tid) := by
  induction l with
  | nil => rfl
  | cons r rs ih =>
      simp only [List.map_cons, List.any_cons, ih]
      by_cases h : r.telegram_id = tid
      · simp [h, updUser]
      · simp [h]

theorem countP_map_upd (tid : Int) (bt u c : Option String) (l : List UserRow) :
    ((l.map (fun r => if r.telegram_id == tid then updUser bt u c r else r)).countP
        (·.telegram_id == tid))
      = l.countP (·.telegram_id == tid) := by
  induction l with
  | nil => rfl
  | cons r rs ih =>
      simp only [List.map_cons, List.countP_cons, ih]
      by_cases h : r.telegram_id = tid
      · simp [h, updUser]
      · simp [h]

theorem countP_one_of_nodup (tid : Int) (l : List UserRow)
    (hnd : (l.map (·.telegram_id)).Nodup)
    (h : l.any (·.telegram_id == tid) = true) :
    l.countP (·.telegram_id == tid) = 1 := by
  induction l with
  | nil => simp at h
  | cons r rs ih =>
      simp only [List.map_cons, List.nodup_cons] at hnd
      by_cases hr : r.telegram_id = tid
      · have hzero : rs.countP (·.telegram_id == tid) = 0 := by
          apply List.countP_eq_zero.mpr
          intro x hx
          simp only [beq_iff_eq]
          intro hxe
          exact hnd.1 (by rw [← hr] at hxe; exact hxe ▸ List.mem_map_of_mem (·.telegram_id) hx)
        simp [List.countP_cons, hr, hzero]
      · have hany : rs.any (·.telegram_id == tid) = true := by
          simpa [List.any_cons, hr] using h
        simp [List.countP_cons, hr, ih hnd.2 hany]

theorem add_user_any (tid : Int) (bt u c : Option String) (db : DB) :
    ((add_user tid bt u c db).2.users.any (·.telegram_id == tid)) = true := by
  unfold add_user
  by_cases h : db.users.any (·.telegram_id == tid)
  · simp only [h, if_true]
    rw [any_map_upd]
    exact h
  · simp [h]

theorem add_user_countP (tid : Int) (bt u c : Option String) (db : DB)
    (hnd : (db.users.map (·.telegram_id)).Nodup) :
    ((add_user tid bt u c db).2.users.countP (·.telegram_id == tid)) = 1 := by
  unfold add_user
  by_cases h : db.users.any (·.telegram_id == tid)
  · simp only [h, if_true]
    rw [countP_map_upd]
    exact countP_one_of_nodup tid db.users hnd h
  · simp only [h, if_false, Bool.false_eq_true]
    rw [List.countP_append]
    have hz : db.users.countP (·.telegram_id == tid) = 0 :=
      List.countP_eq_zero.mpr (List.any_eq_false.mp (Bool.not_eq_true _ ▸ h))
    simp [hz, List.countP_cons]

theorem add_user_business_type (tid : Int) (bt u c : Option String) (db : DB) :
    ∀ r ∈ (add_user tid bt u c db).2.users, r.telegram_id = tid → r.business_type = bt := by
  unfold add_user
  by_cases h : db.users.any (·.telegram_id == tid)
  · simp only [h, if_true]
    intro r hr hrt
    rcases List.mem_map.mp hr with ⟨r0, hr0, hfr⟩
    by_cases h0 : r0.telegram_id = tid
    · rw [← hfr]; simp [h0, updUser]
    · rw [← hfr] at hrt; simp [h0] at hrt
  · simp only [h, if_false, Bool.false_eq_true]
    intro r hr hrt
    rcases List.mem_append.mp hr with hl | hnew
    · exact absurd (by simp [hrt]) (List.any_eq_false.mp (Bool.not_eq_true _ ▸ h) r hl)
    · simp at hnew; rw [hnew]

theorem add_user_username_some (tid : Int) (bt c : Option String) (s : String) (db : DB) :
    ∀ r ∈ (add_user tid bt (some s) c db).2.users, r.telegram_id = tid → r.username = some s := by
  unfold add_user
  by_cases h : db.users.any (·.telegram_id == tid)
  · simp only [h, if_true]
    intro r hr hrt
    rcases List.mem_map.mp hr with ⟨r0, hr0, hfr⟩
    by_cases h0 : r0.telegram_id = tid
    · rw [← hfr]; simp [h0, updUser, coalesce]
    · rw [← hfr] at hrt; simp [h0] at hrt
  · simp only [h, if_false, Bool.false_eq_true]
    intro r hr hrt
    rcases List.mem_append.mp hr with hl | hnew
    · exact absurd (by simp [hrt]) (List.any_eq_false.mp (Bool.not_eq_true _ ▸ h) r hl)
    · simp at hnew; rw [hnew]

theorem add_user_username_preserved (tid : Int) (bt c : Option String) (s : String) (db : DB)
    (hall : ∀ r ∈ db.users, r.telegram_id = tid → r.username = some s)
    (hmem : db.users.any (·.telegram_id == tid) = true) :
    ∀ r ∈ (add_user tid bt none c db).2.users, r.telegram_id = tid → r.username = some s := by
  unfold add_user
  simp only [hmem, if_true]
  intro r hr hrt
  rcases List.mem_map.mp hr with ⟨r0, hr0, hfr⟩
  by_cases h0 : r0.telegram_id = tid
  · rw [← hfr]; simp [h0, updUser, coalesce]; exact hall r0 hr0 h0
  · rw [← hfr] at hrt; simp [h0] at hrt

theorem add_user_upd_fixed (tid : Int) (bt u c : Option String) (db : DB) :
    ∀ r ∈ (add_user tid bt u c db).2.users, r.telegram_id = tid → updUser bt u c r = r := by
  unfold add_user
  by_cases h : db.users.any (·.telegram_id == tid)
  · simp only [h, if_true]
    intro r hr hrt
    rcases List.mem_map.mp hr with ⟨r0, hr0, hfr⟩
    by_cases h0 : r0.telegram_id = tid
    · rw [← hfr]
      simp only [h0, beq_self_eq_true, if_true]
      exact updUser_updUser bt u c r0
    · rw [← hfr] at hrt; simp [h0] at hrt
  · simp only [h, if_false, Bool.false_eq_true]
    intro r hr hrt
    rcases List.mem_append.mp hr with hl | hnew
    · exact absurd (by simp [hrt]) (List.any_eq_false.mp (Bool.not_eq_true _ ▸ h) r hl)
    · simp at hnew
      rw [hnew]
      simp [updUser, coalesce_self]

theorem add_user_idem (tid : Int) (bt u c : Option String) (db : DB) :
    (add_user tid bt u c (add_user tid bt u c db).2).2 = (add_user tid bt u c db).2 := by
  have hany := add_user_any tid bt u c db
  have hfix := add_user_upd_fixed tid bt u c db
  generalize hdb1 : (add_user tid bt u c db).2 = db1 at hany hfix ⊢
  have husers : db1.users.map
      (fun r => if r.telegram_id == tid then updUser bt u c r else r) = db1.users := by
    have hid : ∀ r ∈ db1.users,
        (if r.telegram_id == tid then updUser bt u c r else r) = id r := by
      intro r hr
      by_cases h0 : r.telegram_id = tid
      · simp [h0, hfix r hr h0]
      · simp [h0]
    rw [List.map_congr_left hid, List.map_id]
  unfold add_user
  rw [if_pos hany]
  show DB.mk
      (List.map (fun r => if r.telegram_id == tid then updUser bt u c r else r) db1.users)
      db1.questions db1.prompts db1.nextQuestionId = db1
  rw [husers]

/-- C8: `add_user` (the `upsertUser` of the spec) is idempotent — repeating a
call with identical arguments leaves the store unchanged — and, given unique
telegram ids, leaves exactly one row for the id; `business_type` is always
overwritten; and a `None` name on a later call preserves the name stored by
an earlier call (COALESCE semantics). -/
theorem C8_upsert_idempotent_coalesce (db : DB) (tid : Int)
    (bt bt2 u n n2 : Option String) (s : String)
    (hnd : (db.users.map (·.telegram_id)).Nodup) :
    (add_user tid bt u n (add_user tid bt u n db).2).2 = (add_user tid bt u n db).2
    ∧ ((add_user tid bt u n db).2.users.countP (·.telegram_id == tid)) = 1
    ∧ (∀ r ∈ (add_user tid bt u n db).2.users, r.telegram_id = tid → r.business_type = bt)
    ∧ (∀ r ∈ (add_user tid bt2 none n2 (add_user tid bt (some s) n db).2).2.users,
         r.telegram_id = tid → r.username = some s ∧ r.business_type = bt2) := by
  refine ⟨add_user_idem tid bt u n db, add_user_countP tid bt u n db hnd,
          add_user_business_type tid bt u n db, ?_⟩
  intro r hr hrt
  constructor
  · exact add_user_username_preserved tid bt2 n2 s (add_user tid bt (some s) n db).2
      (add_user_username_some tid bt n s db)
      (add_user_any tid bt (some s) n db) r hr hrt
  · exact add_user_business_type tid bt2 none n2 (add_user tid bt (some s) n db).2 r hr hrt

/-- C7: for a category with no pre-existing question or prompt rows, a
successful `add_business_type` (the spec's `createCategory`) writes exactly
the four standard questions with orders 0–3 — so `listQuestions` returns
exactly those four in ascending order — and the default prompt template, so
`getPrompt` returns it; and when any statement of the sequence fails, the
transaction rolls back and nothing is persisted. -/
theorem C7_create_category_defaults (db : DB) (bt : String)
    (hq : ∀ q ∈ db.questions, q.business_type ≠ bt)
    (hp : ∀ p ∈ db.prompts, p.business_type ≠ bt) :
    (add_business_type bt db).1 = true
    ∧ get_questions_for_business_type bt (add_business_type bt db).2
        = [ (db.nextQuestionId, sq0, 0), (db.nextQuestionId + 1, sq1, 1)
          , (db.nextQuestionId + 1 + 1, sq2, 2), (db.nextQuestionId + 1 + 1 + 1, sq3, 3) ]
    ∧ get_prompt bt (add_business_type bt db).2 = standard_prompt
    ∧ add_business_type_gw true false bt db = Except.ok (false, db) := by
  have hfilterq : db.questions.filter (·.business_type == bt) = [] :=
    List.filter_eq_nil_iff.mpr (fun q hqm => by simp [hq q hqm])
  have hQ : (add_business_type bt db).2.questions
      = db.questions
        ++ [ { id := db.nextQuestionId, business_type := bt
             , question_text := sq0, question_order := 0 }
           , { id := db.nextQuestionId + 1, business_type := bt
             , question_text := sq1, question_order := 1 }
           , { id := db.nextQuestionId + 1 + 1, business_type := bt
             , question_text := sq2, question_order := 2 }
           , { id := db.nextQuestionId + 1 + 1 + 1, business_type := bt
             , question_text := sq3, question_order := 3 } ] := by
    simp [add_business_type, insertQuestion, upsertPrompt]
  have hP : (add_business_type bt db).2.prompts
      = db.prompts ++ [{ business_type := bt, prompt_text := standard_prompt }] := by
    have hanyp : db.prompts.any (·.business_type == bt) = false :=
      List.any_eq_false.mpr (fun p hpm => by simp [hp p hpm])
    simp [add_business_type, insertQuestion, upsertPrompt, hanyp]
  refine ⟨rfl, ?_, ?_, rfl⟩
  · unfold get_questions_for_business_type
    rw [hQ, List.filter_append, hfilterq, List.nil_append]
    simp [sortByOrder, insertByOrder]
  · unfold get_prompt
    rw [hP, find_none_append (fun p hpm => by simp [hp p hpm])]
    simp

/-- C10: `update_question` (the spec's `updateQuestionText`) touches only the
`question_text` field of rows whose id matches: the users and prompts tables
are untouched, the number of question rows is preserved, every non-matching
question row survives unchanged, and every row of the result agrees with a
row of the input on `id`, `business_type` and `question_order`, with the
text changed only on the matching id. -/
theorem C10_update_question_frame (db : DB) (i : Int) (t : String) :
    (update_question (some i) t db).2.users = db.users
    ∧ (update_question (some i) t db).2.prompts = db.prompts
    ∧ (update_question (some i) t db).2.questions.length = db.questions.length
    ∧ (∀ q ∈ db.questions, q.id ≠ i → q ∈ (update_question (some i) t db).2.questions)
    ∧ (∀ q2 ∈ (update_question (some i) t db).2.questions, ∃ q ∈ db.questions,
         q2.id = q.id ∧ q2.business_type = q.business_type
         ∧ q2.question_order = q.question_order
         ∧ (q.id ≠ i → q2.question_text = q.question_text)
         ∧ (q.id = i → q2.question_text = t)) := by
  refine ⟨rfl, rfl, by simp [update_question], ?_, ?_⟩
  · intro q hq hne
    unfold update_question
    simp only
    refine List.mem_map.mpr ⟨q, hq, ?_⟩
    simp [hne]
  · intro q2 hq2
    unfold update_question at hq2
    simp only at hq2
    rcases List.mem_map.mp hq2 with ⟨q, hq, hfq⟩
    refine ⟨q, hq, ?_⟩
    by_cases h0 : q.id = i
    · rw [← hfq]; simp [h0]
    · rw [← hfq]; simp [h0]

/-- C3 (amended): `update_question` returns `True` whenever the statement
commits, even when no row matches the id — the source never inspects
`cur.rowcount` — and in that no-match case the store is unchanged; `False`
is returned only when a database error occurs (modelled by the gateway
wrapper), in which case the transaction rolls back. -/
theorem C3_update_question_always_true (qid : Option Int) (t : String) (db : DB)
    (h : ∀ q ∈ db.questions, some q.id ≠ qid) :
    (update_question qid t db).1 = true
    ∧ (update_question qid t db).2 = db
    ∧ update_question_gw true false qid t db = Except.ok (false, db) := by
  refine ⟨rfl, ?_, rfl⟩
  have hm : ∀ q ∈ db.questions,
      (if some q.id == qid then { q with question_text := t } else q) = id q := by
    intro q hq
    simp [h q hq]
  unfold update_question
  show DB.mk db.users
      (List.map (fun q => if some q.id == qid then { q with question_text := t } else q)
        db.questions)
      db.prompts db.nextQuestionId = db
  rw [List.map_congr_left hm, List.map_id]

/-- C3 (counterexample): on an empty store — no question row with id 1
exists — `update_question 1 "new text"` still reports success, refuting
"true iff a row matched". -/
theorem C3_counterexample_true_without_match :
    (update_question (some 1) ("new text") emptyDB).1 = true
    ∧ emptyDB.questions.countP (fun q => q.id == 1) = 0 := by decide

/-- C5 (amended): when the numeric parse of the leading token fails, the
add-user, remove-user and edit-question-id handlers render an inline error
and mutate neither the scratch data nor the store — but they transition to
the enclosing management-menu state (`MANAGE_USERS` / `MANAGE_QUESTIONS`)
rather than re-rendering the state the text arrived in. -/
theorem C5_parse_failure_to_menu (input : String) (sc : Scratch) (db : DB)
    (h1 : pyParseInt (pySplitMax1 (pyStrip input)).1 = none)
    (h2 : pyParseInt (pyStrip input) = none) :
    add_user_handler input sc db
      = (BotState.MANAGE_USERS, sc, db, [Out.errIdNotNumber, Out.chooseAction])
    ∧ remove_user_handler input sc db
      = (BotState.MANAGE_USERS, sc, db, [Out.errIdNotNumber, Out.chooseAction])
    ∧ edit_question_handler input sc db
      = (BotState.MANAGE_QUESTIONS, sc, db,
         [Out.errQuestionIdNotNumber, Out.chooseAction]) := by
  refine ⟨?_, ?_, ?_⟩
  · simp [add_user_handler, h1]
  · simp [remove_user_handler, h2]
  · simp [edit_question_handler, h2]

/-- C5 (counterexample): a non-numeric input in the `ADD_USER` state returns
`MANAGE_USERS`, not the `ADD_USER` state the text arrived in — the claim's
"leaves the engine in the same state" fails. -/
theorem C5_counterexample_state_changes :
    add_user_handler ("abc") emptyScratch emptyDB
      = (BotState.MANAGE_USERS, emptyScratch, emptyDB,
         [Out.errIdNotNumber, Out.chooseAction])
    ∧ pyParseInt ("abc") = none
    ∧ BotState.MANAGE_USERS ≠ BotState.ADD_USER := by decide

/-- C6 (amended): statement-level store failures are converted to boolean
results with the store rolled back, but a failure to acquire a pooled
connection is re-raised by `get_connection` — whose call sits before the
`try` block of every gateway operation — and therefore propagates out of the
gateway as a raw exception. -/
theorem C6_gateway_failure_modes (tid : Int) (bt u c : Option String)
    (db : DB) (stmtOk : Bool) :
    add_user_gw true false tid bt u c db = Except.ok (false, db)
    ∧ remove_user_gw true false tid db = Except.ok (false, db)
    ∧ update_question_gw true false none ("t") db = Except.ok (false, db)
    ∧ add_user_gw false stmtOk tid bt u c db = Except.error poolFailureMsg
    ∧ remove_user_gw false stmtOk tid db = Except.error poolFailureMsg
    ∧ update_question_gw false stmtOk none ("t") db = Except.error poolFailureMsg :=
  ⟨rfl, rfl, rfl, rfl, rfl, rfl⟩

/-- C6 (counterexample): a pool-acquisition failure on `add_user` surfaces
as a raw propagated exception (`Except.error`), not as a boolean result —
refuting "the operation returns a boolean/optional/default result rather
than letting a raw low-level exception propagate". -/
theorem C6_counterexample_pool_failure_raises :
    add_user_gw false true 1 none none none emptyDB = Except.error poolFailureMsg := rfl

/-- C9 (amended): `/cancel` ends the conversation from every state (the
session is destroyed, so the next `/start` from an authorized identity
begins at `MAIN_MENU`), but the per-identity `user_data` scratch map is not
cleared — selected category, edit target and cached listing all survive into
the next session. -/
theorem C9_cancel_ends_session_keeps_scratch (st : BotState) (sc : Scratch)
    (adminIds : List Int) (uid : Int) (h : is_admin adminIds uid = true) :
    (cancelStep { conversation := some st, user_data := sc }).1
      = { conversation := none, user_data := sc }
    ∧ (startStep adminIds uid { conversation := none, user_data := sc }).1
      = { conversation := some BotState.MAIN_MENU, user_data := sc } :=
  ⟨rfl, by simp [startStep, h]⟩

/-- C9 (counterexample): cancelling from `ADD_USER` with a selected category
in scratch ends the conversation, and the following `/start` begins a
`MAIN_MENU` session — but the scratch still holds the old category and edit
target, refuting "with empty scratch". -/
theorem C9_counterexample_scratch_survives :
    (cancelStep { conversation := some BotState.ADD_USER, user_data := scClinic }).1
      = { conversation := none, user_data := scClinic }
    ∧ (startStep [42] 42 { conversation := none, user_data := scClinic }).1
      = { conversation := some BotState.MAIN_MENU, user_data := scClinic }
    ∧ scClinic ≠ emptyScratch := by decide

/-- C1: the `EDIT_USER_INFO` state registers the pattern
`^edit_user:[0-9]+$` to the name `edit_user_selection_handler`, which is not
among the functions the module defines — constructing the
`ConversationHandler` in `main()` raises `NameError` — while the defined
`edit_user_info_handler`, which implements exactly that dispatch, is
registered in no state. -/
theorem C1_edit_user_dispatch_undefined :
    ("edit_user_selection_handler", "^edit_user:[0-9]+$")
        ∈ callbackHandlersFor BotState.EDIT_USER_INFO
    ∧ ("edit_user_selection_handler") ∉ definedFunctionNames
    ∧ ("edit_user_info_handler") ∈ definedFunctionNames
    ∧ ("edit_user_info_handler") ∉ allRegisteredHandlerNames := by decide

/-- C2: the source has a single `EDIT_QUESTION` state whose only text
handler is `update_question_text_handler`; the id-parsing
`edit_question_handler` — which implements the claimed first step (parse the
id, store it, ask for the new text) — is registered in no state.  The first
text sent after choosing "edit question" (here `"5"`, meant as the id) is
therefore consumed as the *new question text* with the stale stored id
(`None` on a fresh session) and the dialogue returns to `MANAGE_QUESTIONS`,
skipping the claimed two-step flow. -/
theorem C2_edit_question_single_state :
    registeredTextHandler BotState.EDIT_QUESTION = some ("update_question_text_handler")
    ∧ ("edit_question_handler") ∉ allRegisteredHandlerNames
    ∧ update_question_text_handler ("5") emptyScratch emptyDB
        = (BotState.MANAGE_QUESTIONS, emptyScratch, emptyDB,
           [Out.questionUpdated none, Out.chooseAction])
    ∧ edit_question_handler ("5") emptyScratch emptyDB
        = (BotState.EDIT_QUESTION, { emptyScratch with edit_question_id := some 5 },
           emptyDB, [Out.askNewQuestionText]) := by decide

/-- C4: `add_business_type ("Clinic")` on an empty store succeeds and writes
its four question rows, yet `get_business_types` — which reads
`DISTINCT business_type FROM users` — does not list the new category: it is
invisible to every category picker until a user is registered under it. -/
theorem C4_new_category_invisible :
    (add_business_type ("Clinic") emptyDB).1 = true
    ∧ (add_business_type ("Clinic") emptyDB).2.questions.length = 4
    ∧ some ("Clinic") ∉ get_business_types (add_business_type ("Clinic") emptyDB).2 := by
  decide

/-- Witness for C3: instantiated on the empty store and id 1. -/
theorem C3_update_question_always_true_witness :
    (update_question (some 1) ("x") emptyDB).2 = emptyDB :=
  (C3_update_question_always_true (some 1) ("x") emptyDB (by decide)).2.1

/-- Witness for C5: instantiated on the non-numeric input `"x7"`. -/
theorem C5_parse_failure_to_menu_witness :
    remove_user_handler ("x7") emptyScratch emptyDB
      = (BotState.MANAGE_USERS, emptyScratch, emptyDB,
         [Out.errIdNotNumber, Out.chooseAction]) :=
  (C5_parse_failure_to_menu ("x7") emptyScratch emptyDB (by decide) (by decide)).2.1

/-- Witness for C7: creating `"Clinic"` on the empty store yields the
default prompt. -/
theorem C7_create_category_defaults_witness :
    get_prompt ("Clinic") (add_business_type ("Clinic") emptyDB).2 = standard_prompt :=
  (C7_create_category_defaults emptyDB ("Clinic") (by decide) (by decide)).2.2.1

/-- Witness for C8: after registering user 5 under `"Clinic"`, exactly one
row carries telegram id 5. -/
theorem C8_upsert_idempotent_coalesce_witness :
    ((add_user 5 (some ("Clinic")) (some ("Ivan")) none emptyDB).2.users.countP
        (·.telegram_id == 5)) = 1 :=
  (C8_upsert_idempotent_coalesce emptyDB 5 (some ("Clinic")) none (some ("Ivan"))
    none none ("x") (by decide)).2.1

/-- Witness for C9: identity 42 is in the allow-list `[42]`, and its
post-cancel `/start` session begins at `MAIN_MENU` with the old scratch. -/
theorem C9_cancel_ends_session_keeps_scratch_witness :
    (startStep [42] 42 { conversation := none, user_data := scClinic }).1
      = { conversation := some BotState.MAIN_MENU, user_data := scClinic } :=
  (C9_cancel_ends_session_keeps_scratch BotState.ADD_USER scClinic [42] 42 (by decide)).2

/-- Witness for C10: the non-matching question row of `dbex` (id 7 ≠ 1)
survives `update_question` unchanged. -/
theorem C10_update_question_frame_witness :
    qex ∈ (update_question (some 1) ("t2") dbex).2.questions :=
  (C10_update_question_frame dbex 1 ("t2")).2.2.2.1 qex (by decide) (by decide)
